import Mathlib

/-!
# Verification of `scraping_weather.py`

A shallow embedding of the JMA hourly-precipitation scraper
(`src/scraping_weather.py`) together with proofs about the claims of its
specification.

Modelling conventions:

* A `<td>` cell is represented by its BeautifulSoup `.string` value: `none`
  when the cell carries no single text node (the structurally-absent marker
  the code tests with `tds[i].string == None`), `some s` when it carries the
  text `s`.  A `<tr>` row is the list of its `<td>` cells, and a fetched page
  is the result of `soup.find("table", {"class": "data2_s"})`: `none` when
  the table is absent (the code then crashes on `trs.findAll`, modelled as a
  parse error), `some rows` otherwise, the two header rows included.
* Python `float` values are modelled by `PyFloat`: an exact rational for the
  finite case plus the two infinities and NaN, which Python's `float()`
  accepts as the literals `inf` / `infinity` / `nan` (with optional sign,
  case-insensitive).  The model of `float()` covers plain decimal literals
  (`digits [. digits]` or `. digits`, optional sign, surrounding whitespace)
  and those special words; scientific notation and digit underscores, which
  never occur in the scraped cells, are out of the modelled fragment.
* Calendar dates are modelled as day ordinals (`Nat`): `date + timedelta(1)`
  is `d + 1` and date comparison is the order on `Nat`.
* The output sink is modelled by the list of rows written to it plus a
  `closed` flag.  The source opens the file with a `with` statement, whose
  context manager closes the file both on normal exit and when an exception
  propagates out of the block, so `closed` is `true` on every exit path.
-/

/-- The `.string` content of one `<td>` cell: `none` when BeautifulSoup
reports no single text node for the cell. -/
abbrev Cell : Type := Option String

/-- One `<tr>` row of the data table, as the list of its `<td>` cells. -/
abbrev Row : Type := List Cell

/-- The result of locating the `data2_s` table in the fetched page: `none`
when the table is absent, otherwise all of its rows (header rows included). -/
abbrev Page : Type := Option (List Row)

/-- The exceptions the extractor can raise: `parseError` models the
`AttributeError` raised by `trs.findAll` when the table lookup returned
`None`, `indexError` the `IndexError` of `tds[i]` on a too-short row. -/
inductive ScrapeErr : Type
  | parseError
  | indexError
deriving DecidableEq, Repr

/-- A Python `float`, as produced by `float(str)`: an exact rational in the
finite case, or an infinity (`neg` records the sign), or NaN. -/
inductive PyFloat : Type
  | finite (q : ℚ)
  | inf (neg : Bool)
  | nan
deriving DecidableEq, Repr

/-- `true` exactly on the finite values. -/
def PyFloat.isFinite : PyFloat → Bool
  | .finite _ => true
  | .inf _ => false
  | .nan => false

/-- The numeric value of a digit string, most significant digit first. -/
def decValue (ds : List Char) : Nat :=
  ds.foldl (fun a c => 10 * a + (c.toNat - 48)) 0

/-- The plain decimal part of Python's `float()` grammar, after sign
stripping: `digits [. digits]` or `. digits`; anything else fails. -/
def parseDecimalBody (cs : List Char) : Option ℚ :=
  let intPart := cs.takeWhile Char.isDigit
  let rest := cs.dropWhile Char.isDigit
  match rest with
  | [] => if intPart.isEmpty then none else some ((decValue intPart : ℚ))
  | '.' :: rest2 =>
    let fracPart := rest2.takeWhile Char.isDigit
    let rest3 := rest2.dropWhile Char.isDigit
    if rest3.isEmpty then
      if intPart.isEmpty && fracPart.isEmpty then none
      else some ((decValue intPart : ℚ) + (decValue fracPart : ℚ) / (10 : ℚ) ^ fracPart.length)
    else none
  | _ => none

/-- Python's `float(str)` on the fragment of its grammar the scraper can
meet: optional surrounding whitespace, optional sign, then either a plain
decimal literal or one of the case-insensitive words `nan`, `inf`,
`infinity`.  Returns `none` where `float()` raises `ValueError`. -/
def pythonFloat (s : String) : Option PyFloat :=
  let cs := ((s.toList.dropWhile Char.isWhitespace).reverse.dropWhile Char.isWhitespace).reverse
  let signSplit : Bool × List Char :=
    match cs with
    | '-' :: rest => (true, rest)
    | '+' :: rest => (false, rest)
    | _ => (false, cs)
  let neg := signSplit.1
  let body := signSplit.2
  let lower := body.map Char.toLower
  if lower = ['n', 'a', 'n'] then some PyFloat.nan
  else if lower = ['i', 'n', 'f'] ∨ lower = ['i', 'n', 'f', 'i', 'n', 'i', 't', 'y'] then
    some (PyFloat.inf neg)
  else
    match parseDecimalBody body with
    | some q => some (PyFloat.finite (if neg then -q else q))
    | none => none

/-- `string_to_float` from the source: `try: return float(weather_data)
except: return 0`. -/
def string_to_float (weather_data : String) : PyFloat :=
  match pythonFloat weather_data with
  | some v => v
  | none => PyFloat.finite 0

/-- `select_weather_observatory` from the source: length 5 gives `"s1"`,
length 4 gives `"a1"`, and on any other length the source prints two
messages and falls off with a bare `return`, i.e. yields Python `None`
(modelled `none`) without raising. -/
def select_weather_observatory (block_no : String) : Option String :=
  if block_no.length = 5 then some "s1"
  else if block_no.length = 4 then some "a1"
  else none

/-- One row of the output: `[date, tds[0].string, string_to_float(...)]`,
with the date the extractor was called with. -/
structure ObservationRecord : Type where
  date : Nat
  hour_label : Cell
  precipitation : PyFloat
deriving DecidableEq, Repr

/-- The row loop of `scraping_day_per_hour`, over the data rows (the two
header rows already dropped).  Faithful to the source loop: for `"s1"` the
target cell is `tds[3]`, for `"a1"` it is `tds[1]`; a missing cell raises
`IndexError`; a cell whose `.string` is `None` breaks out of the loop; any
other facility type matches neither branch, so the row is skipped. -/
def extractRows (date : Nat) (facility_type : Option String) :
    List Row → Except ScrapeErr (List ObservationRecord)
  | [] => Except.ok []
  | tds :: rest =>
    if facility_type = some "s1" then
      match tds[3]? with
      | none => Except.error ScrapeErr.indexError
      | some none => Except.ok []
      | some (some txt) =>
        match tds[0]? with
        | none => Except.error ScrapeErr.indexError
        | some hl =>
          match extractRows date facility_type rest with
          | Except.error e => Except.error e
          | Except.ok tail =>
            Except.ok (ObservationRecord.mk date hl (string_to_float txt) :: tail)
    else if facility_type = some "a1" then
      match tds[1]? with
      | none => Except.error ScrapeErr.indexError
      | some none => Except.ok []
      | some (some txt) =>
        match tds[0]? with
        | none => Except.error ScrapeErr.indexError
        | some hl =>
          match extractRows date facility_type rest with
          | Except.error e => Except.error e
          | Except.ok tail =>
            Except.ok (ObservationRecord.mk date hl (string_to_float txt) :: tail)
    else
      extractRows date facility_type rest

/-- `scraping_day_per_hour` from the source, with the network fetch and
BeautifulSoup parsing abstracted into the `Page` argument: a missing
`data2_s` table raises (`AttributeError` on `trs.findAll`, modelled as
`parseError`); otherwise the first two rows are skipped and the row loop
runs over the rest. -/
def scraping_day_per_hour (page : Page) (date : Nat) (facility_type : Option String) :
    Except ScrapeErr (List ObservationRecord) :=
  match page with
  | none => Except.error ScrapeErr.parseError
  | some trs => extractRows date facility_type (trs.drop 2)

/-- The record the extractor builds from a row whose target cell (index
`idx`) carries text: hour label from cell 0, precipitation coerced from the
target cell's text. -/
def rowRecord (date idx : Nat) (r : Row) : ObservationRecord :=
  { date := date
    hour_label := (r[0]?).join
    precipitation := string_to_float (((r[idx]?).join).getD "") }

/-- One line of the output CSV: the header row or a data row. -/
inductive CsvRow : Type
  | header (fields : List String)
  | data (r : ObservationRecord)
deriving DecidableEq, Repr

/-- The header fields of the output file. -/
def csvFields : List String := ["年月日", "時間", "降水量"]

/-- The state of the run: the rows written to the sink, the exception that
aborted it (if any), whether the sink was closed, and how many fetches were
issued. -/
structure RunResult : Type where
  rows : List CsvRow
  err : Option ScrapeErr
  closed : Bool
  fetches : Nat
deriving DecidableEq, Repr

/-- The date loop of `create_csv_hour`: while `date ≤ endDate`, fetch the
day's page, scrape it, append its records, advance the date by one day.  An
exception from the extractor stops the loop at once; rows of earlier days
stay written.  Returns (rows written by the loop, aborting exception if
any, number of fetches issued).  The loop runs at most `endDate + 1 - date`
iterations, so recursion on that fuel is exact: the fuel only runs out when
`date > endDate`, where the fuel-exhausted branch returns the same value as
the failed loop guard. -/
def csvLoop (pages : Nat → Page) (facility_type : Option String) (endDate : Nat) :
    Nat → Nat → List CsvRow × Option ScrapeErr × Nat
  | 0, _ => ([], none, 0)
  | fuel + 1, date =>
    if date ≤ endDate then
      match scraping_day_per_hour (pages date) date facility_type with
      | Except.error e => ([], some e, 1)
      | Except.ok recs =>
        let rest := csvLoop pages facility_type endDate fuel (date + 1)
        (recs.map CsvRow.data ++ rest.1, rest.2.1, rest.2.2 + 1)
    else ([], none, 0)

/-- `create_csv_hour` from the source, with the fetch abstracted: classify
the station once, open the sink, write the header row, run the date loop
from `startDate` to `endDate` inclusive, and close the sink.  The `with`
block closes the file on the normal exit and on the exceptional exit alike,
so `closed` is `true` in every outcome. -/
def create_csv_hour (pages : Nat → Page) (block_no : String)
    (startDate endDate : Nat) : RunResult :=
  let facility_type := select_weather_observatory block_no
  let r := csvLoop pages facility_type endDate (endDate + 1 - startDate) startDate
  { rows := CsvRow.header csvFields :: r.1
    err := r.2.1
    closed := true
    fetches := r.2.2 }

/-! ## Lemmas about the value coercer -/

theorem string_to_float_of_parse (s : String) (v : PyFloat)
    (h : pythonFloat s = some v) : string_to_float s = v := by
  simp [string_to_float, h]

theorem string_to_float_of_fail (s : String)
    (h : pythonFloat s = none) : string_to_float s = PyFloat.finite 0 := by
  simp [string_to_float, h]

theorem string_to_float_nonfinite_parsed (s : String)
    (h : (string_to_float s).isFinite = false) :
    pythonFloat s = some (string_to_float s) := by
  cases hp : pythonFloat s with
  | none =>
    rw [string_to_float_of_fail s hp] at h
    simp [PyFloat.isFinite] at h
  | some v =>
    rw [string_to_float_of_parse s v hp]

/-! ## Lemmas about the row loop of the day extractor -/

theorem extractRows_cons_break (date : Nat) (ft : Option String) (idx : Nat)
    (hdisp : ft = some "s1" ∧ idx = 3 ∨ ft = some "a1" ∧ idx = 1)
    (tds : Row) (rest : List Row) (h : tds[idx]? = some none) :
    extractRows date ft (tds :: rest) = Except.ok [] := by
  rcases hdisp with ⟨rfl, rfl⟩ | ⟨rfl, rfl⟩ <;>
    simp [extractRows, h]

theorem extractRows_cons_ok (date : Nat) (ft : Option String) (idx : Nat)
    (hdisp : ft = some "s1" ∧ idx = 3 ∨ ft = some "a1" ∧ idx = 1)
    (tds : Row) (rest : List Row) (txt : String) (hl : Cell)
    (htxt : tds[idx]? = some (some txt)) (hhl : tds[0]? = some hl) :
    extractRows date ft (tds :: rest) =
      (extractRows date ft rest).map
        (fun tail => ObservationRecord.mk date hl (string_to_float txt) :: tail) := by
  rcases hdisp with ⟨rfl, rfl⟩ | ⟨rfl, rfl⟩ <;>
  · simp only [extractRows, if_pos rfl, htxt, hhl]
    cases extractRows date _ rest <;> rfl

theorem extractRows_cons_other (date : Nat) (ft : Option String)
    (tds : Row) (rest : List Row)
    (h1 : ft ≠ some "s1") (h2 : ft ≠ some "a1") :
    extractRows date ft (tds :: rest) = extractRows date ft rest := by
  simp only [extractRows, if_neg h1, if_neg h2]

theorem extractRows_all_present (date : Nat) (ft : Option String) (idx : Nat)
    (hdisp : ft = some "s1" ∧ idx = 3 ∨ ft = some "a1" ∧ idx = 1) :
    ∀ rows : List Row, (∀ r ∈ rows, ∃ t, r[idx]? = some (some t)) →
      extractRows date ft rows = Except.ok (rows.map (rowRecord date idx))
  | [], _ => rfl
  | r :: rows, h => by
    obtain ⟨t, ht⟩ := h r (List.mem_cons_self r rows)
    have hlen : idx < r.length := (List.getElem?_eq_some.mp ht).1
    have h0 : 0 < r.length := by
      rcases hdisp with ⟨_, rfl⟩ | ⟨_, rfl⟩ <;> omega
    have hhl : r[0]? = some r[0] := List.getElem?_eq_getElem h0
    rw [extractRows_cons_ok date ft idx hdisp r rows t r[0] ht hhl,
      extractRows_all_present date ft idx hdisp rows
        (fun r' hr' => h r' (List.mem_cons_of_mem r hr'))]
    simp [rowRecord, ht, hhl, Except.map]

theorem extractRows_break_at (date : Nat) (ft : Option String) (idx : Nat)
    (hdisp : ft = some "s1" ∧ idx = 3 ∨ ft = some "a1" ∧ idx = 1) :
    ∀ (good : List Row) (bad : Row) (rest : List Row),
      (∀ r ∈ good, ∃ t, r[idx]? = some (some t)) → bad[idx]? = some none →
      extractRows date ft (good ++ bad :: rest) = Except.ok (good.map (rowRecord date idx))
  | [], bad, rest, _, hbad => by
    simpa using extractRows_cons_break date ft idx hdisp bad rest hbad
  | r :: good, bad, rest, h, hbad => by
    obtain ⟨t, ht⟩ := h r (List.mem_cons_self r good)
    have hlen : idx < r.length := (List.getElem?_eq_some.mp ht).1
    have h0 : 0 < r.length := by
      rcases hdisp with ⟨_, rfl⟩ | ⟨_, rfl⟩ <;> omega
    have hhl : r[0]? = some r[0] := List.getElem?_eq_getElem h0
    rw [List.cons_append,
      extractRows_cons_ok date ft idx hdisp r (good ++ bad :: rest) t r[0] ht hhl,
      extractRows_break_at date ft idx hdisp good bad rest
        (fun r' hr' => h r' (List.mem_cons_of_mem r hr')) hbad]
    simp [rowRecord, ht, hhl, Except.map]

theorem extractRows_other (date : Nat) (ft : Option String)
    (h1 : ft ≠ some "s1") (h2 : ft ≠ some "a1") :
    ∀ rows : List Row, extractRows date ft rows = Except.ok []
  | [] => rfl
  | r :: rows => by
    rw [extractRows_cons_other date ft r rows h1 h2]
    exact extractRows_other date ft h1 h2 rows

theorem extractRows_cons_cases (date : Nat) (ft : Option String) (idx : Nat)
    (hdisp : ft = some "s1" ∧ idx = 3 ∨ ft = some "a1" ∧ idx = 1)
    (tds : Row) (rest : List Row) (recs : List ObservationRecord)
    (h : extractRows date ft (tds :: rest) = Except.ok recs) :
    recs = [] ∨ ∃ txt hl tail, tds[idx]? = some (some txt) ∧ tds[0]? = some hl ∧
      extractRows date ft rest = Except.ok tail ∧
      recs = ObservationRecord.mk date hl (string_to_float txt) :: tail := by
  rcases hdisp with ⟨rfl, rfl⟩ | ⟨rfl, rfl⟩
  · simp only [extractRows, if_true] at h
    rcases h3 : tds[3]? with _ | (_ | t) <;> rw [h3] at h
    · exact Except.noConfusion h
    · exact Or.inl (Except.ok.inj h).symm
    · rcases h0 : tds[0]? with _ | hl <;> rw [h0] at h
      · exact Except.noConfusion h
      · rcases hrest : extractRows date (some "s1") rest with e | tail <;> rw [hrest] at h
        · exact Except.noConfusion h
        · exact Or.inr ⟨t, hl, tail, rfl, rfl, rfl, (Except.ok.inj h).symm⟩
  · simp only [extractRows, if_true] at h
    rcases h3 : tds[1]? with _ | (_ | t) <;> rw [h3] at h
    · exact Except.noConfusion h
    · exact Or.inl (Except.ok.inj h).symm
    · rcases h0 : tds[0]? with _ | hl <;> rw [h0] at h
      · exact Except.noConfusion h
      · rcases hrest : extractRows date (some "a1") rest with e | tail <;> rw [hrest] at h
        · exact Except.noConfusion h
        · exact Or.inr ⟨t, hl, tail, rfl, rfl, rfl, (Except.ok.inj h).symm⟩

theorem extractRows_record_facts (date : Nat) (ft : Option String) (idx : Nat)
    (hdisp : ft = some "s1" ∧ idx = 3 ∨ ft = some "a1" ∧ idx = 1) :
    ∀ (rows : List Row) (recs : List ObservationRecord),
      extractRows date ft rows = Except.ok recs →
      ∀ rec ∈ recs, rec.date = date ∧ ∃ t, rec.precipitation = string_to_float t
  | [], recs, h => by
    injection h with h'
    subst h'
    intro rec hrec
    cases hrec
  | tds :: rest, recs, h => by
    rcases extractRows_cons_cases date ft idx hdisp tds rest recs h with
      rfl | ⟨txt, hl, tail, htxt, hhl, hrest, rfl⟩
    · intro rec hrec
      cases hrec
    · intro rec hrec
      rcases List.mem_cons.mp hrec with rfl | hmem
      · exact ⟨rfl, txt, rfl⟩
      · exact extractRows_record_facts date ft idx hdisp rest tail hrest rec hmem

theorem extractRows_length_le (date : Nat) (ft : Option String) (idx : Nat)
    (hdisp : ft = some "s1" ∧ idx = 3 ∨ ft = some "a1" ∧ idx = 1) :
    ∀ (rows : List Row) (recs : List ObservationRecord),
      extractRows date ft rows = Except.ok recs → recs.length ≤ rows.length
  | [], recs, h => by
    injection h with h'
    subst h'
    simp
  | tds :: rest, recs, h => by
    rcases extractRows_cons_cases date ft idx hdisp tds rest recs h with
      rfl | ⟨txt, hl, tail, htxt, hhl, hrest, rfl⟩
    · simp
    · have hle := extractRows_length_le date ft idx hdisp rest tail hrest
      simp only [List.length_cons]
      omega

/-! ## Record-level facts lifted to `scraping_day_per_hour` -/

theorem scraping_record_facts (page : Page) (date : Nat) (ft : Option String)
    (recs : List ObservationRecord)
    (h : scraping_day_per_hour page date ft = Except.ok recs) :
    ∀ rec ∈ recs, rec.date = date ∧ ∃ t, rec.precipitation = string_to_float t := by
  cases page with
  | none => exact absurd h (by simp [scraping_day_per_hour])
  | some trs =>
    simp only [scraping_day_per_hour] at h
    by_cases h1 : ft = some "s1"
    · exact extractRows_record_facts date ft 3 (Or.inl ⟨h1, rfl⟩) (trs.drop 2) recs h
    · by_cases h2 : ft = some "a1"
      · exact extractRows_record_facts date ft 1 (Or.inr ⟨h2, rfl⟩) (trs.drop 2) recs h
      · rw [extractRows_other date ft h1 h2 (trs.drop 2)] at h
        injection h with h'
        subst h'
        intro rec hrec
        cases hrec

theorem scraping_length_le (trs : List Row) (date : Nat) (ft : Option String)
    (recs : List ObservationRecord)
    (h : scraping_day_per_hour (some trs) date ft = Except.ok recs) :
    recs.length ≤ trs.length - 2 := by
  simp only [scraping_day_per_hour] at h
  have hdrop : (trs.drop 2).length = trs.length - 2 := List.length_drop 2 trs
  by_cases h1 : ft = some "s1"
  · have := extractRows_length_le date ft 3 (Or.inl ⟨h1, rfl⟩) (trs.drop 2) recs h
    omega
  · by_cases h2 : ft = some "a1"
    · have := extractRows_length_le date ft 1 (Or.inr ⟨h2, rfl⟩) (trs.drop 2) recs h
      omega
    · rw [extractRows_other date ft h1 h2 (trs.drop 2)] at h
      injection h with h'
      subst h'
      simp

/-! ## Lemmas about the date loop -/

theorem list_range_shift (s n : Nat) :
    (List.range (n + 1)).map (s + ·) = s :: (List.range n).map ((s + 1) + ·) := by
  rw [List.range_succ_eq_map, List.map_cons, List.map_map]
  have hf : ((s + ·) ∘ Nat.succ) = ((s + 1) + ·) := by
    funext i
    simp only [Function.comp_apply, Nat.succ_eq_add_one]
    omega
  rw [hf]
  congr 1

theorem csvLoop_all_ok (pages : Nat → Page) (ft : Option String) (e : Nat)
    (recs : Nat → List ObservationRecord) :
    ∀ (fuel s : Nat), e + 1 - s ≤ fuel →
      (∀ d, s ≤ d → d ≤ e → scraping_day_per_hour (pages d) d ft = Except.ok (recs d)) →
      csvLoop pages ft e fuel s =
        (((List.range (e + 1 - s)).map (s + ·)).flatMap (fun d => (recs d).map CsvRow.data),
          none, e + 1 - s)
  | 0, s, hfuel, _ => by
    have h0 : e + 1 - s = 0 := by omega
    rw [h0]
    simp [csvLoop]
  | fuel + 1, s, hfuel, hok => by
    by_cases hse : s ≤ e
    · have hrec := csvLoop_all_ok pages ft e recs fuel (s + 1) (by omega)
        (fun d hd1 hd2 => hok d (by omega) hd2)
      simp only [csvLoop, hok s le_rfl hse, hrec]
      rw [if_pos hse]
      have h2 : e + 1 - (s + 1) = e - s := by omega
      have h1 : e + 1 - s = (e - s) + 1 := by omega
      rw [h2, h1, list_range_shift s (e - s), List.flatMap_cons]
    · have h0 : e + 1 - s = 0 := by omega
      rw [h0]
      simp [csvLoop, if_neg hse]

theorem csvLoop_fails_at (pages : Nat → Page) (ft : Option String) (e : Nat)
    (err : ScrapeErr) (recs : Nat → List ObservationRecord) :
    ∀ (k fuel s : Nat), e + 1 - s ≤ fuel → s + k ≤ e →
      scraping_day_per_hour (pages (s + k)) (s + k) ft = Except.error err →
      (∀ d, s ≤ d → d < s + k → scraping_day_per_hour (pages d) d ft = Except.ok (recs d)) →
      csvLoop pages ft e fuel s =
        (((List.range k).map (s + ·)).flatMap (fun d => (recs d).map CsvRow.data),
          some err, k + 1)
  | 0, fuel, s, hfuel, hk, hfail, _ => by
    have hse : s ≤ e := by omega
    obtain ⟨fuel', rfl⟩ : ∃ f, fuel = f + 1 := ⟨fuel - 1, by omega⟩
    have hs : s + 0 = s := by omega
    rw [hs] at hfail
    simp only [csvLoop, hfail]
    rw [if_pos hse]
    simp
  | k + 1, fuel, s, hfuel, hk, hfail, hok => by
    have hse : s ≤ e := by omega
    obtain ⟨fuel', rfl⟩ : ∃ f, fuel = f + 1 := ⟨fuel - 1, by omega⟩
    have hshift : s + 1 + k = s + (k + 1) := by omega
    have hrec := csvLoop_fails_at pages ft e err recs k fuel' (s + 1) (by omega)
      (by omega) (by rw [hshift]; exact hfail)
      (fun d hd1 hd2 => hok d (by omega) (by omega))
    simp only [csvLoop, hok s le_rfl (by omega), hrec]
    rw [if_pos hse]
    rw [list_range_shift s k, List.flatMap_cons]

/-! ## Claims -/

/-- C1: the code's station classifier maps a 5-character `block_no` to
`"s1"` and a 4-character one to `"a1"`, but on any other length it returns
`None` (no variant) instead of signalling an invalid-configuration
failure — the behaviour the claim requires. -/
theorem select_weather_observatory_code_behavior (s : String) :
    (s.length = 5 → select_weather_observatory s = some "s1") ∧
    (s.length = 4 → select_weather_observatory s = some "a1") ∧
    (s.length ≠ 5 → s.length ≠ 4 → select_weather_observatory s = none) := by
  refine ⟨fun h5 => ?_, fun h4 => ?_, fun h5 h4 => ?_⟩
  · simp [select_weather_observatory, h5]
  · simp [select_weather_observatory, h4]
  · simp [select_weather_observatory, h5, h4]

/-- Witness for C1 at the failing input `"123"`: the classifier returns no
variant and raises nothing. -/
theorem select_weather_observatory_code_behavior_witness :
    select_weather_observatory "123" = none :=
  (select_weather_observatory_code_behavior "123").2.2 (by decide) (by decide)

/-- C3: the value coercer is total: a successful parse returns the parsed
value, any parse failure returns 0.0, and on the spec's sample inputs it
gives 12.3, 0.0, 0.0 and 0.0. -/
theorem value_coercer_spec (s : String) :
    (∀ v, pythonFloat s = some v → string_to_float s = v) ∧
    (pythonFloat s = none → string_to_float s = PyFloat.finite 0) ∧
    string_to_float "12.3" = PyFloat.finite (123 / 10) ∧
    string_to_float "" = PyFloat.finite 0 ∧
    string_to_float "×" = PyFloat.finite 0 ∧
    string_to_float "0" = PyFloat.finite 0 := by
  refine ⟨fun v h => string_to_float_of_parse s v h, string_to_float_of_fail s, ?_, rfl, rfl, rfl⟩
  have h : string_to_float "12.3" =
      PyFloat.finite ((decValue ['1', '2'] : ℚ) + (decValue ['3'] : ℚ) / (10 : ℚ) ^ 1) := rfl
  have h12 : decValue ['1', '2'] = 12 := rfl
  have h3 : decValue ['3'] = 3 := rfl
  rw [h, h12, h3]
  norm_num

/-- Witness for C3: the placeholder glyph is unparseable and coerces to
0.0. -/
theorem value_coercer_spec_witness : string_to_float "×" = PyFloat.finite 0 :=
  (value_coercer_spec "×").2.1 rfl

/-- C2: if row `k` of the data rows (after the two skipped header rows) is
the first whose target precipitation cell is structurally absent (its
`.string` is `None`), the extractor returns exactly the `k` records of the
earlier rows and processes no further rows; and a present-but-empty cell
among those earlier rows does not terminate the loop but yields a record
whose precipitation is 0.0 via the value coercer. -/
theorem day_extractor_early_termination
    (date k idx : Nat) (ft : Option String) (h1 h2 : Row) (rows : List Row)
    (hdisp : ft = some "s1" ∧ idx = 3 ∨ ft = some "a1" ∧ idx = 1)
    (habsent : (rows[k]?.bind fun r => r[idx]?) = some none)
    (hfirst : ∀ j, j < k → ∃ t, (rows[j]?.bind fun r => r[idx]?) = some (some t)) :
    scraping_day_per_hour (some (h1 :: h2 :: rows)) date ft =
      Except.ok ((rows.take k).map (rowRecord date idx)) ∧
    ((rows.take k).map (rowRecord date idx)).length = k ∧
    (∀ j, j < k → (rows[j]?.bind fun r => r[idx]?) = some (some "") →
      ∃ rec, ((rows.take k).map (rowRecord date idx))[j]? = some rec ∧
        rec.precipitation = PyFloat.finite 0) := by
  rcases hk : rows[k]? with _ | bad
  · rw [hk] at habsent
    simp at habsent
  · rw [hk] at habsent
    simp only [Option.some_bind] at habsent
    have hklt : k < rows.length := (List.getElem?_eq_some.mp hk).1
    have hgood : ∀ r ∈ rows.take k, ∃ t, r[idx]? = some (some t) := by
      intro r hr
      obtain ⟨i, hi, rfl⟩ := List.mem_iff_getElem.mp hr
      have hik : i < k := by
        have := List.length_take k rows
        omega
      obtain ⟨t, ht⟩ := hfirst i hik
      have hi' : i < rows.length := by omega
      rw [List.getElem?_eq_getElem hi', Option.some_bind] at ht
      refine ⟨t, ?_⟩
      rw [List.getElem_take]
      exact ht
    have hdecomp : rows = rows.take k ++ bad :: rows.drop (k + 1) := by
      have hbad : rows[k] = bad := (List.getElem?_eq_some.mp hk).2
      rw [← hbad, ← List.drop_eq_getElem_cons hklt, List.take_append_drop]
    have hmain : scraping_day_per_hour (some (h1 :: h2 :: rows)) date ft =
        Except.ok ((rows.take k).map (rowRecord date idx)) := by
      show extractRows date ft ((h1 :: h2 :: rows).drop 2) = _
      have hdrop2 : (h1 :: h2 :: rows).drop 2 = rows := rfl
      rw [hdrop2]
      conv_lhs => rw [hdecomp]
      exact extractRows_break_at date ft idx hdisp (rows.take k) bad
        (rows.drop (k + 1)) hgood habsent
    have hlen : ((rows.take k).map (rowRecord date idx)).length = k := by
      rw [List.length_map, List.length_take]
      omega
    refine ⟨hmain, hlen, fun j hj hcell => ?_⟩
    have hj' : j < rows.length := by omega
    rw [List.getElem?_eq_getElem hj', Option.some_bind] at hcell
    refine ⟨rowRecord date idx rows[j], ?_, ?_⟩
    · rw [List.getElem?_map, List.getElem?_take]
      simp [hj, List.getElem?_eq_getElem hj']
    · simp [rowRecord, hcell]
      rfl

/-- Witness for C2: a page whose second data row has an absent target cell
yields exactly the first row's record. -/
theorem day_extractor_early_termination_witness :
    scraping_day_per_hour
        (some ([] :: [] ::
          [[some "1", none, none, some "0"], [some "2", none, none, none]]))
        7 (some "s1") =
      Except.ok
        ((([[some "1", none, none, some "0"],
            [some "2", none, none, none]] : List Row).take 1).map (rowRecord 7 3)) :=
  (day_extractor_early_termination 7 1 3 (some "s1") [] []
    [[some "1", none, none, some "0"], [some "2", none, none, none]]
    (Or.inl ⟨rfl, rfl⟩) rfl
    (fun j hj => by
      interval_cases j
      exact ⟨"0", rfl⟩)).1

/-- C4 counterexample: a cell whose text is `"nan"` parses successfully in
Python's `float()`, so the produced record's precipitation is NaN — the
claim that every produced precipitation is finite and never NaN fails. -/
theorem precipitation_nan_counterexample :
    (scraping_day_per_hour (some ([] :: [] :: [[some "1", none, none, some "nan"]])) 0
        (some "s1")).map (List.map ObservationRecord.precipitation) =
      Except.ok [PyFloat.nan] := rfl

/-- C4 amended: the precipitation of every produced record is never
missing — it is exactly the value coercer applied to some cell text — and
it can fail to be finite only when that text itself parses as NaN or an
infinity; every unparseable text coerces to 0.0. -/
theorem day_extractor_precipitation_source
    (page : Page) (date : Nat) (ft : Option String) (recs : List ObservationRecord)
    (h : scraping_day_per_hour page date ft = Except.ok recs) :
    ∀ rec ∈ recs, ∃ t : String, rec.precipitation = string_to_float t ∧
      ((string_to_float t).isFinite = false → pythonFloat t = some (string_to_float t)) := by
  intro rec hrec
  obtain ⟨-, t, ht⟩ := scraping_record_facts page date ft recs h rec hrec
  exact ⟨t, ht, fun hnf => string_to_float_nonfinite_parsed t hnf⟩

/-- Witness for C4's amended theorem on a concrete one-row page. -/
theorem day_extractor_precipitation_source_witness :
    ∃ t : String,
      (ObservationRecord.mk 0 (some "1") (string_to_float "×")).precipitation =
        string_to_float t ∧
      ((string_to_float t).isFinite = false → pythonFloat t = some (string_to_float t)) :=
  day_extractor_precipitation_source
    (some ([] :: [] :: [[some "1", none, none, some "×"]])) 0 (some "s1")
    [ObservationRecord.mk 0 (some "1") (string_to_float "×")] rfl
    (ObservationRecord.mk 0 (some "1") (string_to_float "×"))
    (List.mem_cons_self _ _)

/-- C6 counterexample: the extractor has no 24-record clamp — on a page
with two header rows and 25 well-formed data rows it returns 25 records. -/
theorem day_extractor_25_records_counterexample :
    (scraping_day_per_hour
        (some ([] :: [] :: List.replicate 25 [some "1", none, none, some "0"])) 0
        (some "s1")).map List.length = Except.ok 25 := rfl

/-- C6 amended: the extractor returns at most (page row count − 2) records
(the two header rows are skipped and each remaining row yields at most one
record), hence 0–24 records whenever the page has at most 26 rows, as the
real site's pages do. -/
theorem day_extractor_length_bound
    (trs : List Row) (date : Nat) (ft : Option String) (recs : List ObservationRecord)
    (h : scraping_day_per_hour (some trs) date ft = Except.ok recs) :
    recs.length ≤ trs.length - 2 ∧ (trs.length ≤ 26 → recs.length ≤ 24) := by
  have hle := scraping_length_le trs date ft recs h
  exact ⟨hle, fun h26 => by omega⟩

/-- Witness for C6's amended theorem on the empty page. -/
theorem day_extractor_length_bound_witness :
    ([] : List ObservationRecord).length ≤ ([] : List Row).length - 2 ∧
    (([] : List Row).length ≤ 26 → ([] : List ObservationRecord).length ≤ 24) :=
  day_extractor_length_bound [] 0 (some "s1") [] rfl

/-- C9 counterexample: on a concrete failing run (the day's page has no
data table, so the extractor raises and the failure propagates out of the
date loop) the sink IS closed — the claim that close is guaranteed only on
the normal exit path fails, because the `with` block releases the file on
the error-propagation exit too. -/
theorem sink_closed_on_failure_counterexample :
    (create_csv_hour (fun _ => none) "47662" 0 0).err = some ScrapeErr.parseError ∧
    (create_csv_hour (fun _ => none) "47662" 0 0).closed = true :=
  ⟨rfl, rfl⟩

/-- C9 amended: the output sink is closed on every exit of the run, the
error-propagation exit included, because the source holds the file in a
`with` block whose context manager closes it unconditionally. -/
theorem sink_always_closed (pages : Nat → Page) (block_no : String) (s e : Nat) :
    (create_csv_hour pages block_no s e).closed = true := rfl

/-- C10: when the facility type passed to the day extractor is neither
`"s1"` nor `"a1"` (for instance the `None` the classifier yields for a
`block_no` of invalid length), the extractor matches neither branch of its
row loop and returns the empty sequence without raising, so a whole run
over pages that carry the data table completes normally with a header-only
output and no error. -/
theorem unknown_variant_empty_run
    (ft : Option String) (hft1 : ft ≠ some "s1") (hft2 : ft ≠ some "a1")
    (pages : Nat → Page) (block_no : String) (s e : Nat)
    (hlen5 : block_no.length ≠ 5) (hlen4 : block_no.length ≠ 4)
    (hpages : ∀ d, ∃ rs, pages d = some rs) :
    (∀ (trs : List Row) (date : Nat),
      scraping_day_per_hour (some trs) date ft = Except.ok []) ∧
    (create_csv_hour pages block_no s e).rows = [CsvRow.header csvFields] ∧
    (create_csv_hour pages block_no s e).err = none := by
  have hscr : ∀ (ft' : Option String), ft' ≠ some "s1" → ft' ≠ some "a1" →
      ∀ (trs : List Row) (date : Nat),
      scraping_day_per_hour (some trs) date ft' = Except.ok [] := by
    intro ft' h1 h2 trs date
    show extractRows date ft' (trs.drop 2) = _
    exact extractRows_other date ft' h1 h2 (trs.drop 2)
  have hsel : select_weather_observatory block_no = none := by
    simp [select_weather_observatory, hlen5, hlen4]
  have hok : ∀ d, s ≤ d → d ≤ e →
      scraping_day_per_hour (pages d) d (select_weather_observatory block_no) =
        Except.ok ((fun _ => ([] : List ObservationRecord)) d) := by
    intro d _ _
    obtain ⟨rs, hrs⟩ := hpages d
    rw [hrs, hsel]
    exact hscr none (by simp) (by simp) rs d
  have hloop := csvLoop_all_ok pages (select_weather_observatory block_no) e
    (fun _ => []) (e + 1 - s) s le_rfl hok
  refine ⟨hscr ft hft1 hft2, ?_, ?_⟩
  · simp only [create_csv_hour, hloop]
    simp
  · simp only [create_csv_hour, hloop]

/-- Witness for C10: an invalid-length station code and table-carrying
pages give a header-only, error-free run. -/
theorem unknown_variant_empty_run_witness :
    (create_csv_hour (fun _ => some []) "123" 0 0).rows = [CsvRow.header csvFields] ∧
    (create_csv_hour (fun _ => some []) "123" 0 0).err = none :=
  (unknown_variant_empty_run none (by simp) (by simp) (fun _ => some []) "123" 0 0
    (by decide) (by decide) (fun _ => ⟨[], rfl⟩)).2

/-- C5: a successful run writes the header row first, then, in ascending
date order, one contiguous group per day from the start date to the end
date, each group being exactly the day's records in the order the extractor
returned them; every record in a day's group carries that day's date. -/
theorem range_collector_ordering
    (pages : Nat → Page) (block_no : String) (s e : Nat)
    (recs : Nat → List ObservationRecord)
    (hok : ∀ d, s ≤ d → d ≤ e →
      scraping_day_per_hour (pages d) d (select_weather_observatory block_no) =
        Except.ok (recs d)) :
    (create_csv_hour pages block_no s e).rows =
      CsvRow.header csvFields ::
        ((List.range (e + 1 - s)).map (s + ·)).flatMap
          (fun d => (recs d).map CsvRow.data) ∧
    List.Pairwise (· < ·) ((List.range (e + 1 - s)).map (s + ·)) ∧
    (∀ d, s ≤ d → d ≤ e → ∀ rec ∈ recs d, rec.date = d) := by
  have hloop := csvLoop_all_ok pages (select_weather_observatory block_no) e recs
    (e + 1 - s) s le_rfl hok
  refine ⟨?_, ?_, ?_⟩
  · simp only [create_csv_hour, hloop]
  · exact (List.pairwise_lt_range (e + 1 - s)).map (s + ·)
      (fun a b hab => by dsimp only; omega)
  · intro d hd1 hd2 rec hrec
    exact (scraping_record_facts (pages d) d _ (recs d) (hok d hd1 hd2) rec hrec).1

/-- Witness for C5: a two-day run writes the header and then the two days'
rows in date order. -/
theorem range_collector_ordering_witness :
    (create_csv_hour (fun _ => some ([] :: [] :: [[some "1", none, none, some "0"]]))
        "47662" 2 3).rows =
      CsvRow.header csvFields ::
        ((List.range (3 + 1 - 2)).map (2 + ·)).flatMap
          (fun d => ([ObservationRecord.mk d (some "1") (string_to_float "0")]).map
            CsvRow.data) :=
  (range_collector_ordering
    (fun _ => some ([] :: [] :: [[some "1", none, none, some "0"]])) "47662" 2 3
    (fun d => [ObservationRecord.mk d (some "1") (string_to_float "0")])
    (fun _ _ _ => rfl)).1

/-- C7: with a one-day range (start = end) the run issues exactly one fetch
and writes the header plus exactly that day's rows; with a reversed range
(start > end) it issues no fetch and ends with a header-only output and no
error or warning. -/
theorem range_collector_boundaries
    (pages : Nat → Page) (block_no : String) (s e : Nat)
    (recs : List ObservationRecord)
    (hone : scraping_day_per_hour (pages s) s (select_weather_observatory block_no) =
      Except.ok recs) :
    (s = e →
      (create_csv_hour pages block_no s e).fetches = 1 ∧
      (create_csv_hour pages block_no s e).rows =
        CsvRow.header csvFields :: recs.map CsvRow.data ∧
      (create_csv_hour pages block_no s e).err = none) ∧
    (e < s →
      (create_csv_hour pages block_no s e).fetches = 0 ∧
      (create_csv_hour pages block_no s e).rows = [CsvRow.header csvFields] ∧
      (create_csv_hour pages block_no s e).err = none) := by
  constructor
  · rintro rfl
    have hok : ∀ d, s ≤ d → d ≤ s →
        scraping_day_per_hour (pages d) d (select_weather_observatory block_no) =
          Except.ok ((fun _ => recs) d) := by
      intro d h1 h2
      have hd : d = s := by omega
      subst hd
      exact hone
    have hloop := csvLoop_all_ok pages (select_weather_observatory block_no) s
      (fun _ => recs) (s + 1 - s) s le_rfl hok
    have h1 : s + 1 - s = 1 := by omega
    rw [h1] at hloop
    refine ⟨?_, ?_, ?_⟩ <;> simp only [create_csv_hour, h1, hloop]
    have hr : List.range 1 = [0] := rfl
    rw [hr, List.map_cons, List.map_nil, List.flatMap_cons, List.flatMap_nil,
      List.append_nil]
  · intro hes
    have h0 : e + 1 - s = 0 := by omega
    refine ⟨?_, ?_, ?_⟩ <;> simp only [create_csv_hour, h0, csvLoop]

/-- Witness for C7 at a concrete station and dates 5..5 and 5..4. -/
theorem range_collector_boundaries_witness :
    ((create_csv_hour
        (fun _ => some ([] :: [] :: [[some "1", none, none, some "0"]])) "47662" 5 5).fetches = 1 ∧
      (create_csv_hour
        (fun _ => some ([] :: [] :: [[some "1", none, none, some "0"]])) "47662" 5 5).rows =
        CsvRow.header csvFields ::
          ([ObservationRecord.mk 5 (some "1") (string_to_float "0")]).map CsvRow.data ∧
      (create_csv_hour
        (fun _ => some ([] :: [] :: [[some "1", none, none, some "0"]])) "47662" 5 5).err =
        none) ∧
    ((create_csv_hour
        (fun _ => some ([] :: [] :: [[some "1", none, none, some "0"]])) "47662" 5 4).fetches = 0 ∧
      (create_csv_hour
        (fun _ => some ([] :: [] :: [[some "1", none, none, some "0"]])) "47662" 5 4).rows =
        [CsvRow.header csvFields] ∧
      (create_csv_hour
        (fun _ => some ([] :: [] :: [[some "1", none, none, some "0"]])) "47662" 5 4).err =
        none) :=
  ⟨(range_collector_boundaries
      (fun _ => some ([] :: [] :: [[some "1", none, none, some "0"]])) "47662" 5 5
      [ObservationRecord.mk 5 (some "1") (string_to_float "0")] rfl).1 rfl,
    (range_collector_boundaries
      (fun _ => some ([] :: [] :: [[some "1", none, none, some "0"]])) "47662" 5 4
      [ObservationRecord.mk 5 (some "1") (string_to_float "0")] rfl).2 (by omega)⟩

/-- C8: when the extractor raises on day start + k after succeeding on the
k earlier days, the failure propagates (the run ends with that error), the
sink holds exactly the header row plus the rows already written for the
days before the failing one — nothing is rolled back — and no day after the
failing one is fetched. -/
theorem failure_truncation
    (pages : Nat → Page) (block_no : String) (s e k : Nat) (err : ScrapeErr)
    (recs : Nat → List ObservationRecord)
    (hk : s + k ≤ e)
    (hfail : scraping_day_per_hour (pages (s + k)) (s + k)
      (select_weather_observatory block_no) = Except.error err)
    (hok : ∀ d, s ≤ d → d < s + k →
      scraping_day_per_hour (pages d) d (select_weather_observatory block_no) =
        Except.ok (recs d)) :
    (create_csv_hour pages block_no s e).err = some err ∧
    (create_csv_hour pages block_no s e).rows =
      CsvRow.header csvFields ::
        ((List.range k).map (s + ·)).flatMap (fun d => (recs d).map CsvRow.data) ∧
    (create_csv_hour pages block_no s e).fetches = k + 1 := by
  have hloop := csvLoop_fails_at pages (select_weather_observatory block_no) e err recs
    k (e + 1 - s) s le_rfl hk hfail hok
  refine ⟨?_, ?_, ?_⟩ <;> simp only [create_csv_hour, hloop]

/-- Witness for C8: day 0 succeeds, day 1 has no data table, the run aborts
with the parse error keeping day 0's row. -/
theorem failure_truncation_witness :
    (create_csv_hour
        (fun d => if d = 0 then some ([] :: [] :: [[some "1", none, none, some "0"]]) else none)
        "47662" 0 2).err = some ScrapeErr.parseError ∧
    (create_csv_hour
        (fun d => if d = 0 then some ([] :: [] :: [[some "1", none, none, some "0"]]) else none)
        "47662" 0 2).rows =
      CsvRow.header csvFields ::
        ((List.range 1).map (0 + ·)).flatMap
          (fun d => ([ObservationRecord.mk d (some "1") (string_to_float "0")]).map
            CsvRow.data) ∧
    (create_csv_hour
        (fun d => if d = 0 then some ([] :: [] :: [[some "1", none, none, some "0"]]) else none)
        "47662" 0 2).fetches = 1 + 1 :=
  failure_truncation
    (fun d => if d = 0 then some ([] :: [] :: [[some "1", none, none, some "0"]]) else none)
    "47662" 0 2 1 ScrapeErr.parseError
    (fun d => [ObservationRecord.mk d (some "1") (string_to_float "0")])
    (by omega) rfl
    (fun d h1 h2 => by
      have hd : d = 0 := by omega
      subst hd
      rfl)
